import Mathlib

/-!
Shallow embedding of the Button-Box firmware (src/main.rs and
src/hid_descriptor.rs) and proofs of the specified properties.

Machine bytes (`u8`) are modelled as `Nat`; all bitwise operations used by
the code (`|`, `&`) cannot overflow, and `!0x01` / `!0x02` on `u8` are the
constants `0xFE` / `0xFD`.
-/

/-- Raw HID report descriptor bytes for the 2-button gamepad,
copied from `HID_REPORT_DESCRIPTOR` in src/hid_descriptor.rs. -/
def HID_REPORT_DESCRIPTOR : List Nat :=
  [0x05, 0x01,
   0x09, 0x05,
   0xA1, 0x01,
   0x09, 0x01,
   0xA1, 0x00,
   0x05, 0x09,
   0x19, 0x01,
   0x29, 0x02,
   0x15, 0x00,
   0x25, 0x01,
   0x95, 0x02,
   0x75, 0x01,
   0x81, 0x02,
   0x95, 0x06,
   0x75, 0x01,
   0x81, 0x01,
   0xC0,
   0xC0]

/-- The in-memory HID report (`ButtonBoxHidReport` in src/hid_descriptor.rs):
one packed byte, bit 0 = button 1, bit 1 = button 2, bits 2-7 padding. -/
structure ButtonBoxHidReport where
  buttons : Nat
  deriving DecidableEq, Repr

/-- Rust `ButtonBoxHidReport::new`: a report with no buttons pressed. -/
def ButtonBoxHidReport.new : ButtonBoxHidReport :=
  { buttons := 0 }

/-- Rust `ButtonBoxHidReport::set_button1`: set the state of button 1.
Rust `self.buttons |= 0x01` / `self.buttons &= !0x01` (with `!0x01 = 0xFE` on `u8`). -/
def ButtonBoxHidReport.set_button1 (r : ButtonBoxHidReport) (pressed : Bool) :
    ButtonBoxHidReport :=
  if pressed then { buttons := r.buttons ||| 0x01 }
  else { buttons := r.buttons &&& 0xFE }

/-- Rust `ButtonBoxHidReport::set_button2`: set the state of button 2.
Rust `self.buttons |= 0x02` / `self.buttons &= !0x02` (with `!0x02 = 0xFD` on `u8`). -/
def ButtonBoxHidReport.set_button2 (r : ButtonBoxHidReport) (pressed : Bool) :
    ButtonBoxHidReport :=
  if pressed then { buttons := r.buttons ||| 0x02 }
  else { buttons := r.buttons &&& 0xFD }

/-- Rust `ButtonBoxHidReport::button1_pressed`: `(self.buttons & 0x01) != 0`. -/
def ButtonBoxHidReport.button1_pressed (r : ButtonBoxHidReport) : Bool :=
  (r.buttons &&& 0x01) ≠ 0

/-- Rust `ButtonBoxHidReport::button2_pressed`: `(self.buttons & 0x02) != 0`. -/
def ButtonBoxHidReport.button2_pressed (r : ButtonBoxHidReport) : Bool :=
  (r.buttons &&& 0x02) ≠ 0

/-- Rust `ButtonBoxHidReport::as_bytes`: the one-byte wire serialization `[self.buttons]`. -/
def ButtonBoxHidReport.as_bytes (r : ButtonBoxHidReport) : List Nat :=
  [r.buttons]

/-- Rust `ButtonBoxHidReport::from_bytes`: succeeds when `bytes.len() >= 1`,
taking `bytes[0] & 0x03`; returns `None` on an empty input. -/
def ButtonBoxHidReport.from_bytes (bytes : List Nat) : Option ButtonBoxHidReport :=
  if h : bytes.length ≥ 1 then
    some { buttons := bytes.get ⟨0, h⟩ &&& 0x03 }
  else
    none

/-- Constant `BUTTON1_BIT` from module `button_bits`. -/
def button_bits.BUTTON1_BIT : Nat := 0x01

/-- Constant `BUTTON2_BIT` from module `button_bits`. -/
def button_bits.BUTTON2_BIT : Nat := 0x02

/-- Constant `BUTTON_MASK` from module `button_bits`. -/
def button_bits.BUTTON_MASK : Nat := 0x03

/-- Constant `PADDING_MASK` from module `button_bits`. -/
def button_bits.PADDING_MASK : Nat := 0xFC

/-- Rust `button_helpers::extract_buttons`: decode the two button booleans from a raw byte. -/
def button_helpers.extract_buttons (raw_byte : Nat) : Bool × Bool :=
  let button1 : Bool := (raw_byte &&& button_bits.BUTTON1_BIT) ≠ 0
  let button2 : Bool := (raw_byte &&& button_bits.BUTTON2_BIT) ≠ 0
  (button1, button2)

/-- Rust `button_helpers::create_button_byte`: pack two button booleans into a byte. -/
def button_helpers.create_button_byte (button1 button2 : Bool) : Nat :=
  let byte0 : Nat := 0
  let byte1 := if button1 then byte0 ||| button_bits.BUTTON1_BIT else byte0
  let byte2 := if button2 then byte1 ||| button_bits.BUTTON2_BIT else byte1
  byte2

/-- Rust `button_helpers::is_valid_button_byte`: `(byte & PADDING_MASK) == 0`. -/
def button_helpers.is_valid_button_byte (byte : Nat) : Bool :=
  (byte &&& button_bits.PADDING_MASK) == 0

/-- The report type sent over USB (`ButtonBoxReport` in src/main.rs,
generated HID struct with a buttons byte and a padding byte). -/
structure ButtonBoxReport where
  buttons : Nat
  padding : Nat
  deriving DecidableEq, Repr

/-- Device state (`ButtonBox` in src/main.rs). The two GPIO pins are modelled
by the boolean active-low levels the next `read_buttons` call will observe. -/
structure ButtonBox where
  button1_low : Bool
  button2_low : Bool
  last_report : ButtonBoxReport
  deriving DecidableEq, Repr

/-- Rust `ButtonBox::new`: construct with both buttons recorded as released. -/
def ButtonBox.new (button1_low button2_low : Bool) : ButtonBox :=
  { button1_low := button1_low
    button2_low := button2_low
    last_report := { buttons := 0, padding := 0 } }

/-- Rust `ButtonBox::read_buttons`: sample the (active-low) pins into a fresh report. -/
def ButtonBox.read_buttons (bb : ButtonBox) : ButtonBoxReport :=
  let buttons0 : Nat := 0
  let buttons1 := if bb.button1_low then buttons0 ||| 0x01 else buttons0
  let buttons2 := if bb.button2_low then buttons1 ||| 0x02 else buttons1
  { buttons := buttons2, padding := 0 }

/-- Rust `ButtonBox::has_changed`: sample the buttons, compare the packed byte with
the retained one, unconditionally store the sample, return whether it differed.
The returned pair is (changed, updated device state). -/
def ButtonBox.has_changed (bb : ButtonBox) : Bool × ButtonBox :=
  let current_report := bb.read_buttons
  let changed : Bool := current_report.buttons ≠ bb.last_report.buttons
  (changed, { bb with last_report := current_report })

/-- Rust `ButtonBox::get_report`: return the retained report. -/
def ButtonBox.get_report (bb : ButtonBox) : ButtonBoxReport :=
  bb.last_report

/-- Iterated polling: run `has_changed` `n` times, keeping the device state. -/
def ButtonBox.pollSteps (bb : ButtonBox) : Nat → ButtonBox
  | 0 => bb
  | n + 1 => ButtonBox.pollSteps (bb.has_changed).2 n

/-- Named descriptor fields, in the order and with the meanings the repository
itself documents in `descriptor_fields::FIELD_DESCRIPTIONS` (src/hid_descriptor.rs). -/
inductive HidItem where
  | usagePageGenericDesktop
  | usageGamepad
  | collectionApplication
  | usagePointer
  | collectionPhysical
  | usagePageButton
  | usageMinimumButton1
  | usageMaximumButton2
  | logicalMinimum0
  | logicalMaximum1
  | reportCount2
  | reportSize1
  | inputDataVariableAbsolute
  | reportCount6
  | inputConstantVariableAbsolute
  | endCollection
  deriving DecidableEq, Repr

/-- Byte rendering of each named descriptor field, taken from the byte-pair
column of `descriptor_fields::FIELD_DESCRIPTIONS` in src/hid_descriptor.rs. -/
def HidItem.encodeItem : HidItem → List Nat
  | .usagePageGenericDesktop => [0x05, 0x01]
  | .usageGamepad => [0x09, 0x05]
  | .collectionApplication => [0xA1, 0x01]
  | .usagePointer => [0x09, 0x01]
  | .collectionPhysical => [0xA1, 0x00]
  | .usagePageButton => [0x05, 0x09]
  | .usageMinimumButton1 => [0x19, 0x01]
  | .usageMaximumButton2 => [0x29, 0x02]
  | .logicalMinimum0 => [0x15, 0x00]
  | .logicalMaximum1 => [0x25, 0x01]
  | .reportCount2 => [0x95, 0x02]
  | .reportSize1 => [0x75, 0x01]
  | .inputDataVariableAbsolute => [0x81, 0x02]
  | .reportCount6 => [0x95, 0x06]
  | .inputConstantVariableAbsolute => [0x81, 0x01]
  | .endCollection => [0xC0]

/-- The item sequence the descriptor is specified to encode, in order. -/
def specifiedItemSequence : List HidItem :=
  [.usagePageGenericDesktop, .usageGamepad, .collectionApplication,
   .usagePointer, .collectionPhysical, .usagePageButton,
   .usageMinimumButton1, .usageMaximumButton2,
   .logicalMinimum0, .logicalMaximum1,
   .reportCount2, .reportSize1, .inputDataVariableAbsolute,
   .reportCount6, .reportSize1, .inputConstantVariableAbsolute,
   .endCollection, .endCollection]

/-- Mutators of `ButtonBoxHidReport`, for reachability statements. -/
inductive ReportOp where
  | setB1 (pressed : Bool)
  | setB2 (pressed : Bool)
  deriving DecidableEq, Repr

/-- Apply a sequence of `set_button1` / `set_button2` calls to a report. -/
def applyOps (r : ButtonBoxHidReport) : List ReportOp → ButtonBoxHidReport
  | [] => r
  | ReportOp.setB1 p :: rest => applyOps (r.set_button1 p) rest
  | ReportOp.setB2 p :: rest => applyOps (r.set_button2 p) rest

/-- Two reports with the same fields are equal. -/
theorem ButtonBoxReport.ext_fields (r s : ButtonBoxReport)
    (h1 : r.buttons = s.buttons) (h2 : r.padding = s.padding) : r = s := by
  cases r
  cases s
  simp only [ButtonBoxReport.mk.injEq]
  exact ⟨h1, h2⟩

/-- Both setters keep the packed byte below 4 when it starts below 4. -/
theorem set_button_lt_four :
    ∀ b, b < 4 → ∀ p : Bool,
      (ButtonBoxHidReport.set_button1 ⟨b⟩ p).buttons < 4
      ∧ (ButtonBoxHidReport.set_button2 ⟨b⟩ p).buttons < 4 := by
  decide

/-- Any sequence of setter calls keeps the packed byte below 4. -/
theorem applyOps_lt_four :
    ∀ (ops : List ReportOp) (r : ButtonBoxHidReport), r.buttons < 4 →
      (applyOps r ops).buttons < 4 := by
  intro ops
  induction ops with
  | nil => intro r h; exact h
  | cons op rest ih =>
      intro r h
      cases op with
      | setB1 p => exact ih _ (set_button_lt_four r.buttons h p).1
      | setB2 p => exact ih _ (set_button_lt_four r.buttons h p).2

/-- A byte below 4 has its reserved bits clear. -/
theorem lt_four_masked : ∀ n, n < 4 → n &&& 0xFC = 0 := by
  decide

/-- C3: for every pair of booleans, decoding the encoded byte returns the
original pair: extract_buttons (create_button_byte b1 b2) = (b1, b2). -/
theorem extract_create_round_trip :
    ∀ b1 b2 : Bool,
      button_helpers.extract_buttons (button_helpers.create_button_byte b1 b2) = (b1, b2) := by
  decide

/-- C4: from_bytes fails exactly on the empty input; on any non-empty input it
succeeds with the first byte masked to its two low bits, and deserializing
[0xFF] yields the report encode(true, true), whose byte is 0x03. -/
theorem from_bytes_empty_iff_none :
    (∀ bytes : List Nat, ButtonBoxHidReport.from_bytes bytes = none ↔ bytes = [])
    ∧ (∀ (b : Nat) (rest : List Nat),
        ButtonBoxHidReport.from_bytes (b :: rest) = some { buttons := b &&& 0x03 })
    ∧ ButtonBoxHidReport.from_bytes [0xFF] =
        some { buttons := button_helpers.create_button_byte true true }
    ∧ button_helpers.create_button_byte true true = 0x03 := by
  refine ⟨?_, ?_, by decide, by decide⟩
  · intro bytes
    cases bytes with
    | nil => simp [ButtonBoxHidReport.from_bytes]
    | cons b rest => simp [ButtonBoxHidReport.from_bytes]
  · intro b rest
    have h : (b :: rest).length ≥ 1 := Nat.succ_le_succ (Nat.zero_le _)
    unfold ButtonBoxHidReport.from_bytes
    rw [dif_pos h]
    rfl

/-- C9: from_bytes depends only on the first byte: it accepts any input of
length at least one and ignores everything after the first byte. -/
theorem from_bytes_first_byte_only :
    ∀ (b : Nat) (rest : List Nat),
      (ButtonBoxHidReport.from_bytes (b :: rest)).isSome = true
      ∧ ButtonBoxHidReport.from_bytes (b :: rest) = ButtonBoxHidReport.from_bytes [b] := by
  intro b rest
  have h : (b :: rest).length ≥ 1 := Nat.succ_le_succ (Nat.zero_le _)
  unfold ButtonBoxHidReport.from_bytes
  rw [dif_pos h]
  exact ⟨rfl, rfl⟩

set_option maxRecDepth 2000 in
/-- C10: re-encoding the decoded button states of any byte reproduces the byte
with the reserved bits cleared: create_button_byte (extract_buttons b) = b &&& 0x03. -/
theorem create_extract_masks_reserved :
    ∀ b, b < 256 →
      button_helpers.create_button_byte (button_helpers.extract_buttons b).1
        (button_helpers.extract_buttons b).2 = b &&& 0x03 := by
  decide

/-- Witness for C10 at the concrete byte 0xAB. -/
theorem create_extract_masks_reserved_witness :
    button_helpers.create_button_byte (button_helpers.extract_buttons 0xAB).1
      (button_helpers.extract_buttons 0xAB).2 = 0xAB &&& 0x03 :=
  create_extract_masks_reserved 0xAB (by decide)

/-- C2: every report reachable from new() or from_bytes by set_button1 and
set_button2 calls serializes to a byte whose reserved bits are zero. -/
theorem reachable_reports_reserved_bits_zero (start : ButtonBoxHidReport)
    (h : start = ButtonBoxHidReport.new
      ∨ ∃ bytes, ButtonBoxHidReport.from_bytes bytes = some start)
    (ops : List ReportOp) :
    (ButtonBoxHidReport.as_bytes (applyOps start ops)).headD 0 &&& 0xFC = 0 := by
  have hstart : start.buttons < 4 := by
    rcases h with h | ⟨bytes, hb⟩
    · subst h; decide
    · cases bytes with
      | nil => simp [ButtonBoxHidReport.from_bytes] at hb
      | cons b rest =>
          have hlen : (b :: rest).length ≥ 1 := Nat.succ_le_succ (Nat.zero_le _)
          unfold ButtonBoxHidReport.from_bytes at hb
          rw [dif_pos hlen] at hb
          have hb2 : start = { buttons := b &&& 0x03 } := (Option.some_injective _ hb).symm
          rw [hb2]
          exact Nat.lt_succ_of_le Nat.and_le_right
  have hfin : (applyOps start ops).buttons < 4 := applyOps_lt_four ops start hstart
  show (applyOps start ops).buttons &&& 0xFC = 0
  exact lt_four_masked _ hfin

/-- Witness for C2: starting from new() and pressing both buttons. -/
theorem reachable_reports_reserved_bits_zero_witness :
    (ButtonBoxHidReport.as_bytes
      (applyOps ButtonBoxHidReport.new [ReportOp.setB1 true, ReportOp.setB2 true])).headD 0
      &&& 0xFC = 0 :=
  reachable_reports_reserved_bits_zero ButtonBoxHidReport.new (Or.inl rfl)
    [ReportOp.setB1 true, ReportOp.setB2 true]

set_option maxRecDepth 4000 in
/-- C5: each setter writes exactly its own bit of the packed byte (bit 0 for
button 1, bit 1 for button 2) and leaves every other bit of the byte unchanged. -/
theorem set_button_touches_only_its_bit :
    ∀ b, b < 256 → ∀ p : Bool,
      ((ButtonBoxHidReport.set_button1 ⟨b⟩ p).buttons.testBit 0 = p
        ∧ ∀ i, i < 8 → i ≠ 0 →
            (ButtonBoxHidReport.set_button1 ⟨b⟩ p).buttons.testBit i = b.testBit i)
      ∧ ((ButtonBoxHidReport.set_button2 ⟨b⟩ p).buttons.testBit 1 = p
        ∧ ∀ i, i < 8 → i ≠ 1 →
            (ButtonBoxHidReport.set_button2 ⟨b⟩ p).buttons.testBit i = b.testBit i) := by
  decide

/-- Witness for C5: pressing button 1 on byte 0x55 leaves bit 3 unchanged. -/
theorem set_button_touches_only_its_bit_witness :
    (ButtonBoxHidReport.set_button1 ⟨0x55⟩ true).buttons.testBit 3 = Nat.testBit 0x55 3 :=
  (set_button_touches_only_its_bit 0x55 (by decide) true).1.2 3 (by decide) (by decide)

/-- C7: the compile-time descriptor constant is exactly the byte sequence
encoding the specified item sequence, rendered field by field as the
repository's own FIELD_DESCRIPTIONS table documents. -/
theorem descriptor_encodes_specified_items :
    (specifiedItemSequence.map HidItem.encodeItem).flatten = HID_REPORT_DESCRIPTOR := by
  decide

/-- C1: has_changed reports a change exactly when the sampled packed byte
differs from the retained byte; on a difference the retained report becomes
the sample, on equality the retained report is unchanged; and the five
scenario-table cases hold. -/
theorem has_changed_decision_rule (bb : ButtonBox)
    (hpad : bb.last_report.padding = 0) :
    ((bb.has_changed.1 = true) ↔ bb.read_buttons.buttons ≠ bb.last_report.buttons)
    ∧ (bb.read_buttons.buttons ≠ bb.last_report.buttons →
        bb.has_changed.2.last_report = bb.read_buttons)
    ∧ (bb.read_buttons.buttons = bb.last_report.buttons →
        bb.has_changed.2.last_report = bb.last_report)
    ∧ (ButtonBox.mk false false ⟨0x00, 0⟩).has_changed
        = (false, ButtonBox.mk false false ⟨0x00, 0⟩)
    ∧ (ButtonBox.mk true false ⟨0x00, 0⟩).has_changed
        = (true, ButtonBox.mk true false ⟨0x01, 0⟩)
    ∧ (ButtonBox.mk true true ⟨0x01, 0⟩).has_changed
        = (true, ButtonBox.mk true true ⟨0x03, 0⟩)
    ∧ (ButtonBox.mk true true ⟨0x03, 0⟩).has_changed
        = (false, ButtonBox.mk true true ⟨0x03, 0⟩)
    ∧ (ButtonBox.mk false false ⟨0x03, 0⟩).has_changed
        = (true, ButtonBox.mk false false ⟨0x00, 0⟩) := by
  refine ⟨?_, ?_, ?_, by decide, by decide, by decide, by decide, by decide⟩
  · simp [ButtonBox.has_changed]
  · intro h
    rfl
  · intro h
    have hp : bb.read_buttons.padding = 0 := rfl
    exact ButtonBoxReport.ext_fields bb.read_buttons bb.last_report h (hp.trans hpad.symm)

/-- Witness for C1: a press of button 1 from the all-released state updates the
retained report to the sample. -/
theorem has_changed_decision_rule_witness :
    (ButtonBox.mk true false ⟨0x00, 0⟩).has_changed.2.last_report
      = (ButtonBox.mk true false ⟨0x00, 0⟩).read_buttons :=
  (has_changed_decision_rule (ButtonBox.mk true false ⟨0x00, 0⟩) rfl).2.1 (by decide)

/-- C6: when the sampled report equals the retained report, any number of polls
returns Unchanged every time and the device state (hence the retained report)
never changes. -/
theorem poll_same_sample_idempotent (bb : ButtonBox)
    (h : bb.read_buttons = bb.last_report) :
    ∀ n, bb.pollSteps n = bb ∧ (bb.pollSteps n).has_changed.1 = false := by
  have hstep : bb.has_changed = (false, bb) := by
    unfold ButtonBox.has_changed
    rw [h]
    simp
  intro n
  induction n with
  | zero =>
      refine ⟨rfl, ?_⟩
      show bb.has_changed.1 = false
      rw [hstep]
  | succ n ih =>
      have h2 : (bb.has_changed).2 = bb := congrArg Prod.snd hstep
      constructor
      · show ButtonBox.pollSteps (bb.has_changed).2 n = bb
        rw [h2]
        exact ih.1
      · show (ButtonBox.pollSteps (bb.has_changed).2 n).has_changed.1 = false
        rw [h2]
        exact ih.2

/-- Witness for C6: three polls of the initial state with both buttons released. -/
theorem poll_same_sample_idempotent_witness :
    (ButtonBox.new false false).pollSteps 3 = ButtonBox.new false false :=
  (poll_same_sample_idempotent (ButtonBox.new false false) rfl 3).1

/-- C8: after has_changed, whatever the outcome, the retained report equals the
report just sampled, and get_report returns it. -/
theorem retained_equals_last_sample (bb : ButtonBox) :
    bb.has_changed.2.last_report = bb.read_buttons
    ∧ bb.has_changed.2.get_report = bb.read_buttons :=
  ⟨rfl, rfl⟩
